import Mathlib

/-!
Shallow embedding of the two REDD H5-to-dat converter scripts
(`convert_redd_h5_to_dat.py`, the "Primary Converter", and
`convert_redd_h5_to_dat_pytables.py`, the "Fallback Converter").

Pure string and arithmetic helpers come first; they model the Python and
library primitives the scripts rely on (`str.replace`, `int(...)`,
substring tests, decimal rendering of exact-decimal float values by
`DataFrame.to_csv`, and `.astype(int)` truncation).  The converters
themselves are then modelled as folds over explicit container values,
producing a write log of (path, content) pairs, a list of created
directories, and the processed-building counter.
-/

/-- `pre` is a character-list prefix of the second list. -/
def prefixOfChars : List Char → List Char → Bool
  | [], _ => true
  | _ :: _, [] => false
  | a :: as, b :: bs => a == b && prefixOfChars as bs

/-- `needle` occurs as a contiguous substring of the second list. -/
def subOfChars (needle : List Char) : List Char → Bool
  | [] => prefixOfChars needle []
  | b :: bs => prefixOfChars needle (b :: bs) || subOfChars needle bs

/-- Python `needle in hay` on strings. -/
def strContains (hay needle : String) : Bool :=
  subOfChars needle.data hay.data

/-- Python `s.startswith(pre)`. -/
def startsWithStr (s pre : String) : Bool :=
  prefixOfChars pre.data s.data

/-- Python `s.lower()` (ASCII names only in this data set). -/
def lowerStr (s : String) : String :=
  String.mk (s.data.map Char.toLower)

/-- Fuel-indexed worker for `pyReplace`; the fuel is the length of the
remaining text, which bounds the number of steps. -/
def replaceAux (pat rep : List Char) : Nat → List Char → List Char
  | 0, l => l
  | _, [] => []
  | fuel + 1, c :: cs =>
    if prefixOfChars pat (c :: cs) && !pat.isEmpty then
      rep ++ replaceAux pat rep fuel (List.drop (pat.length - 1) cs)
    else
      c :: replaceAux pat rep fuel cs

/-- Python `s.replace(pat, rep)`: replace every non-overlapping occurrence,
scanning left to right (the scripts use it to strip the `building` /
`meter` name prefixes). -/
def pyReplace (s pat rep : String) : String :=
  String.mk (replaceAux pat.data rep.data s.data.length s.data)

def digitVal (c : Char) : Nat := c.toNat - 48

/-- All-decimal-digit parse of a nonempty character list. -/
def digitsToNat? (l : List Char) : Option Nat :=
  if l.isEmpty then none
  else l.foldl
    (fun acc c => acc.bind (fun n => if c.isDigit then some (n * 10 + digitVal c) else none))
    (some 0)

/-- Models Python `int(str)` on the forms the converters meet: an optional
sign followed by decimal digits; anything else raises, modelled as `none`. -/
def pyInt? (s : String) : Option Int :=
  match s.data with
  | '-' :: rest => (digitsToNat? rest).map (fun n => -(n : Int))
  | '+' :: rest => (digitsToNat? rest).map (fun n => (n : Int))
  | l => (digitsToNat? l).map (fun n => (n : Int))

def digitChar (d : Nat) : Char := Char.ofNat (48 + d)

/-- Fuel-indexed most-significant-first digit expansion. -/
def natDigitsAux : Nat → Nat → List Char
  | 0, _ => []
  | fuel + 1, n => if n == 0 then [] else natDigitsAux fuel (n / 10) ++ [digitChar (n % 10)]

/-- Decimal rendering of a natural number. -/
def natToStr (n : Nat) : String :=
  if n == 0 then "0" else String.mk (natDigitsAux (n + 1) n)

/-- Decimal rendering of an integer (as Python prints an `int`). -/
def intToStr (i : Int) : String :=
  if i < 0 then "-" ++ natToStr i.natAbs else natToStr i.natAbs

/-- Smallest `k ≤ d` with `d ∣ 10 ^ k` (0 when none exists); for `d` of the
form `2 ^ a * 5 ^ b` such a `k` always lies below `d`. -/
def decExp (d : Nat) : Nat :=
  ((List.range (d + 1)).find? (fun k => 10 ^ k % d == 0)).getD 0

def padZeros (k : Nat) (s : String) : String :=
  String.mk (List.replicate (k - s.length) '0') ++ s

/-- Decimal rendering of the nonnegative rational `n / d` (lowest terms,
`d` dividing a power of 10) with at least one fractional digit: the text
pandas `to_csv` writes for a float whose value is that exact decimal
(e.g. `12.5`, `0.0`). -/
def renderDec (n d : Nat) : String :=
  let k := max 1 (decExp d)
  let scaled := n * 10 ^ k / d
  natToStr (scaled / 10 ^ k) ++ "." ++ padZeros k (natToStr (scaled % 10 ^ k))

/-- Rendering of a power value by `to_csv`. -/
def renderQ (q : ℚ) : String :=
  if q.num < 0 then "-" ++ renderDec q.num.natAbs q.den else renderDec q.num.natAbs q.den

/-- Truncation toward zero: NumPy `.astype(int)` on an exact rational value
(`Int.tdiv` on the reduced fraction truncates toward zero). -/
def ratTrunc (q : ℚ) : Int :=
  q.num.tdiv q.den

/-- `(x / 1e9).astype(int)` on an exact rational value: `x / 10 ^ 9` equals
`x.num / (x.den * 10 ^ 9)`, and `Int.tdiv` truncates that toward zero. -/
def truncDivE9 (q : ℚ) : Int :=
  q.num.tdiv (q.den * 10 ^ 9)

/-- `(t / 1e9).astype(int)` on an integer raw timestamp, in exact
arithmetic: divide by `10 ^ 9` and truncate toward zero. -/
def nsToSec (t : Int) : Int :=
  t.tdiv (10 ^ 9)

def concatStrs : List String → String
  | [] => ""
  | s :: rest => s ++ concatStrs rest

/-- Python `sep.join(l)`. -/
def joinWith (sep : String) : List String → String
  | [] => ""
  | [s] => s
  | s :: rest => s ++ sep ++ joinWith sep rest

/-- One output row of a channel file: `to_csv` writes
`<timestamp> <power>` and terminates every row, the last included. -/
def chanLine (t : Int) (v : ℚ) : String :=
  intToStr t ++ " " ++ renderQ v ++ "\n"

/-- Content written by `df.to_csv(channel_file, sep=' ', header=False,
index=False)` for the timestamp/power columns. -/
def mkChanContent (ts : List Int) (vs : List ℚ) : String :=
  concatStrs ((ts.zip vs).map (fun p => chanLine p.1 p.2))

/-- The hardcoded `standard_redd_mapping` dictionary (identical in both
converter scripts). -/
def standardReddMapping : List (Int × String) :=
  [(1, "mains"), (2, "mains"), (3, "oven"), (4, "oven"), (5, "refrigerator"),
   (6, "dishwasher"), (7, "kitchen_outlets"), (8, "kitchen_outlets"),
   (9, "lighting"), (10, "washer_dryer"), (11, "microwave"), (12, "bathroom_gfi"),
   (13, "electric_heat"), (14, "stove"), (15, "kitchen_outlets"),
   (16, "kitchen_outlets"), (17, "lighting"), (18, "lighting"),
   (19, "washer_dryer"), (20, "washer_dryer")]

/-- `standard_redd_mapping.get(meter_num, f'unknown_{meter_num}')`. -/
def applianceName (n : Int) : String :=
  (standardReddMapping.lookup n).getD ("unknown_" ++ intToStr n)

/-- One line appended to `labels_data`: `f"{meter_num} {appliance_name}"`. -/
def labelLine (n : Int) : String :=
  intToStr n ++ " " ++ applianceName n

/-!
## Primary Converter (`convert_redd_h5_to_dat.py`, `convert_h5_to_dat_format`)

The h5py view of the container: a meter's `table` entry is a structured
array with named fields.  The `index` field (integer raw timestamps) is
kept apart from the remaining fields, whose per-row data may be
multi-dimensional; the field named `index` never contains the substring
`value` and is never named `values_block_0`, so keeping it apart does not
change the outcome of the value-column search over `data.dtype.names`.
-/

/-- A meter's `table` dataset as the Primary Converter reads it. -/
structure MeterTable where
  /-- Number of rows of the structured array (`len(table[:])`). -/
  nrows : Nat
  /-- The `index` field (raw integer timestamps), when the dtype has it;
  reading `data['index']` raises when absent. -/
  index? : Option (List Int)
  /-- The remaining named fields in dtype order; each row of a field is a
  list of sub-values (singleton for a scalar field). -/
  cols : List (String × List (List ℚ))
  deriving DecidableEq

/-- Why a meter was skipped; each constructor corresponds to one skip path
of the per-meter loop. -/
inductive MeterSkip where
  /-- `int(meter_key.replace('meter', ''))` raised; caught by the
  per-meter `except` handler at the bottom of the loop. -/
  | badMeterNum
  /-- `'table' not in meter_data`. -/
  | noTable
  /-- `len(sample) == 0`. -/
  | emptyTable
  /-- An exception inside the inner read `try` (e.g. no `index` field, or
  indexing `[:, 0]` into a malformed field). -/
  | readError
  /-- Neither `values_block_0` nor any name containing `value` exists. -/
  | noValueColumn
  deriving DecidableEq

/-- The diagnostic line printed for each skip path (exception text elided
for the two exception-driven paths). -/
def primSkipMsg (key : String) : MeterSkip → String
  | .badMeterNum => "  Warning: Could not process " ++ key
  | .noTable => "    No table found in " ++ key
  | .emptyTable => "    Empty table in " ++ key
  | .readError => "    Could not read table data"
  | .noValueColumn => "    No power values found in " ++ key

/-- `power_values[:, 0]` when the field is multi-dimensional; for a scalar
field (singleton rows) this is the field itself.  A row with no sub-value
makes the indexing raise, modelled as `none`. -/
def subFieldFirst (rows : List (List ℚ)) : Option (List ℚ) :=
  rows.mapM List.head?

/-- Value-column resolution of the Primary Converter: the fixed name
`values_block_0` first, otherwise the first dtype name containing
`value` case-insensitively, otherwise the `noValueColumn` skip. -/
def resolveValueColE (tbl : MeterTable) : Except MeterSkip (List ℚ) :=
  match tbl.cols.lookup "values_block_0" with
  | some rows =>
    match subFieldFirst rows with
    | some v => .ok v
    | none => .error .readError
  | none =>
    match tbl.cols.find? (fun c => strContains (lowerStr c.1) "value") with
    | some c =>
      match subFieldFirst c.2 with
      | some v => .ok v
      | none => .error .readError
    | none => .error .noValueColumn

/-- The body of the per-meter loop for a qualifying key: parse the meter
number, require the `table` entry, require a nonempty table, read the
timestamps, resolve the value column, rescale, and render the channel-file
content.  `Except.error` collects every skip path. -/
def processMeterPrim (key : String) (tbl? : Option MeterTable) :
    Except MeterSkip (Int × String) :=
  match pyInt? (pyReplace key "meter" "") with
  | none => .error .badMeterNum
  | some n =>
    match tbl? with
    | none => .error .noTable
    | some tbl =>
      if tbl.nrows == 0 then .error .emptyTable
      else
        match tbl.index? with
        | none => .error .readError
        | some ts =>
          match resolveValueColE tbl with
          | .error e => .error e
          | .ok vals => .ok (n, mkChanContent (ts.map nsToSec) vals)

/-- One child entry of a building's `elec` group. -/
structure MeterEntry where
  key : String
  /-- The `table` sub-entry, when the meter group has one. -/
  tbl? : Option MeterTable
  deriving DecidableEq

/-- One top-level entry of the container as h5py iterates it. -/
structure BuildingEntry where
  key : String
  /-- The `elec` child group (its entries in iteration order), when present. -/
  elec? : Option (List MeterEntry)
  deriving DecidableEq

/-- Per-building accumulator: the channel files written so far and the
`labels_data` list. -/
structure BState where
  files : List (String × String)
  labels : List String
  deriving DecidableEq

/-- `house_num = house_key.replace('building', '')`, then the
`house_<n>` directory name. -/
def houseDirOf (key : String) : String :=
  "house_" ++ pyReplace key "building" ""

def channelPath (dir : String) (n : Int) : String :=
  dir ++ "/channel_" ++ intToStr n ++ ".dat"

def labelsPath (dir : String) : String :=
  dir ++ "/labels.dat"

/-- One iteration of the Primary Converter's meter loop: skip `cache` and
non-`meter` keys, then run the per-meter body; on success write the
channel file and append the label line. -/
def primMeterStep (dir : String) (st : BState) (m : MeterEntry) : BState :=
  if m.key == "cache" then st
  else if !startsWithStr m.key "meter" then st
  else
    match processMeterPrim m.key m.tbl? with
    | .error _ => st
    | .ok r =>
      { files := st.files ++ [(channelPath dir r.1, r.2)],
        labels := st.labels ++ [labelLine r.1] }

/-- Whole-run accumulator: directories created, files written (a write
log, in order), and the `processed_houses` counter. -/
structure RunState where
  dirs : List String
  files : List (String × String)
  processed : Nat
  deriving DecidableEq

/-- One iteration of the Primary Converter's building loop: skip
non-`building` keys; otherwise create `house_<n>` (before the `elec`
check), run the meter loop, and write `labels.dat` and bump the counter
only when at least one label line was recorded. -/
def primBuildingStep (st : RunState) (b : BuildingEntry) : RunState :=
  if !startsWithStr b.key "building" then st
  else
    let dir := houseDirOf b.key
    let st1 : RunState := { st with dirs := st.dirs ++ [dir] }
    match b.elec? with
    | none => st1
    | some meters =>
      let bs := meters.foldl (primMeterStep dir) ⟨[], []⟩
      { st1 with
        files := st1.files ++ bs.files ++
          (if bs.labels.isEmpty then []
           else [(labelsPath dir, joinWith "\n" bs.labels)]),
        processed := st1.processed + (if bs.labels.isEmpty then 0 else 1) }

/-- `convert_h5_to_dat_format`: fold the building loop over the
container's top-level entries. -/
def runPrimary (c : List BuildingEntry) : RunState :=
  c.foldl primBuildingStep ⟨[], [], 0⟩

/-!
## Fallback Converter (`convert_redd_h5_to_dat_pytables.py`,
`convert_h5_to_dat_pytables`)

The pandas `HDFStore` view: a map from composed key paths to DataFrames.
A DataFrame column is one-dimensional, so column data is a flat `List ℚ`;
the row index (`data.index.values`) is carried separately.
-/

/-- The DataFrame read by `store[meter_key]`. -/
structure FBFrame where
  /-- `data.index.values` (one entry per row). -/
  idx : List ℚ
  /-- `data.columns` with their values, in column order. -/
  cols : List (String × List ℚ)
  deriving DecidableEq

/-- The HDFStore: composed key path to DataFrame.  A lookup miss models
both an absent key and any read error (silently skipped either way). -/
def Store := List (String × FBFrame)

/-- `f'/building{building_num}/elec/meter{meter_num}/table'`. -/
def fbKey (b m : Nat) : String :=
  "/building" ++ natToStr b ++ "/elec/meter" ++ natToStr m ++ "/table"

/-- Power-column selection of the Fallback Converter: the first column
whose name contains `values_block` (case-sensitive) or `power`
(case-insensitive); otherwise the first non-`index` column; otherwise
none (the meter is skipped). -/
def fbPowerCol (frame : FBFrame) : Option (String × List ℚ) :=
  match frame.cols.find?
      (fun c => strContains c.1 "values_block" || strContains (lowerStr c.1) "power") with
  | some c => some c
  | none => (frame.cols.filter (fun c => !(c.1 == "index"))).head?

/-- Timestamp source of the Fallback Converter: the column named `index`
when the DataFrame has one, else the row index. -/
def fbTimestamps (frame : FBFrame) : List ℚ :=
  match frame.cols.lookup "index" with
  | some col => col
  | none => frame.idx

/-- Dynamic timestamp-unit detection: when `timestamps.max() > 1e12`
treat the values as nanoseconds (divide by `1e9` and truncate), else
only cast to integer.  `max()` raises on an empty array, which cannot be
reached because `len(data) == 0` was checked first; the empty case is
mapped to the empty output. -/
def rescaleTs : List ℚ → List Int
  | [] => []
  | h :: t =>
    if ((10 : ℚ) ^ 12) < t.foldl max h then (h :: t).map truncDivE9
    else (h :: t).map ratTrunc

/-- The body of the per-meter probe for one `(building, meter)` pair:
key lookup, emptiness check, timestamp source, power-column selection,
rescaling, and channel-file content.  Every failure yields `none`, with
no diagnostic (the `except` branch is a bare `continue`). -/
def fbMeterContent (store : Store) (b m : Nat) : Option String :=
  match store.lookup (fbKey b m) with
  | none => none
  | some frame =>
    if frame.idx.length == 0 then none
    else
      match fbPowerCol frame with
      | none => none
      | some pc => some (mkChanContent (rescaleTs (fbTimestamps frame)) pc.2)

/-- What the Fallback Converter's `except` handler prints when a
`(building, meter)` pair fails: nothing (`# Silently skip missing
meters`). -/
def fbSkipDiagnostics : List String := []

/-- One iteration of the Fallback Converter's meter loop. -/
def fbMeterStep (store : Store) (b : Nat) (st : BState) (m : Nat) : BState :=
  match fbMeterContent store b m with
  | none => st
  | some content =>
    { files := st.files ++ [(channelPath ("house_" ++ natToStr b) (m : Int), content)],
      labels := st.labels ++ [labelLine (m : Int)] }

/-- One iteration of the Fallback Converter's building loop: create
`house_<n>` unconditionally, probe meters 1–29, and write `labels.dat`
and bump the counter only when at least one label line was recorded. -/
def fbBuildingStep (store : Store) (st : RunState) (b : Nat) : RunState :=
  let dir := "house_" ++ natToStr b
  let st1 : RunState := { st with dirs := st.dirs ++ [dir] }
  let bs := (List.range' 1 29).foldl (fbMeterStep store b) ⟨[], []⟩
  { st1 with
    files := st1.files ++ bs.files ++
      (if bs.labels.isEmpty then []
       else [(labelsPath dir, joinWith "\n" bs.labels)]),
    processed := st1.processed + (if bs.labels.isEmpty then 0 else 1) }

/-- `convert_h5_to_dat_pytables`: the building loop over the fixed id
range 1–6. -/
def runFallback (store : Store) : RunState :=
  (List.range' 1 6).foldl (fbBuildingStep store) ⟨[], [], 0⟩

/-!
## Derived observables and closed forms

`primResults` / `fbResults` list, per building, the (meter id, channel
content) pairs the loops emit; the fold lemmas below prove the loops
equal their closed forms, so each meter's and each building's
contribution is independent of its siblings.
-/

/-- The (meter id, channel content) pairs the Primary Converter's meter
loop emits for a building, in iteration order. -/
def primResults (meters : List MeterEntry) : List (Int × String) :=
  meters.filterMap (fun m =>
    if m.key == "cache" then none
    else if !startsWithStr m.key "meter" then none
    else (processMeterPrim m.key m.tbl?).toOption)

/-- The (meter id, channel content) pairs the Fallback Converter emits
for building `b` when probing the meter ids `ms`. -/
def fbResultsOver (store : Store) (b : Nat) (ms : List Nat) : List (Nat × String) :=
  ms.filterMap (fun m => (fbMeterContent store b m).map (fun c => (m, c)))

/-- The pairs emitted for building `b` over the fixed meter range 1–29. -/
def fbResults (store : Store) (b : Nat) : List (Nat × String) :=
  fbResultsOver store b (List.range' 1 29)

def fbDirOf (b : Nat) : String := "house_" ++ natToStr b

/-- Directories the Primary Converter creates for one top-level entry. -/
def primDirsOf (b : BuildingEntry) : List String :=
  if startsWithStr b.key "building" then [houseDirOf b.key] else []

/-- Files the Primary Converter writes for one top-level entry. -/
def primFilesOf (b : BuildingEntry) : List (String × String) :=
  if startsWithStr b.key "building" then
    match b.elec? with
    | none => []
    | some meters =>
      (primResults meters).map (fun r => (channelPath (houseDirOf b.key) r.1, r.2)) ++
        (if (primResults meters).isEmpty then []
         else [(labelsPath (houseDirOf b.key),
                joinWith "\n" ((primResults meters).map (fun r => labelLine r.1)))])
  else []

/-- Whether the Primary Converter counts this entry in `processed_houses`. -/
def primConvertedB (b : BuildingEntry) : Bool :=
  startsWithStr b.key "building" &&
    (match b.elec? with
     | none => false
     | some meters => !(primResults meters).isEmpty)

/-- Files the Fallback Converter writes for building id `b`. -/
def fbFilesOf (store : Store) (b : Nat) : List (String × String) :=
  (fbResults store b).map (fun r => (channelPath (fbDirOf b) (r.1 : Int), r.2)) ++
    (if (fbResults store b).isEmpty then []
     else [(labelsPath (fbDirOf b),
            joinWith "\n" ((fbResults store b).map (fun r => labelLine (r.1 : Int))))])

theorem isEmptyMap {α β : Type} (f : α → β) (l : List α) :
    (l.map f).isEmpty = l.isEmpty := by
  cases l <;> rfl

theorem primMeterFold (dir : String) (meters : List MeterEntry) :
    ∀ f l, meters.foldl (primMeterStep dir) ⟨f, l⟩ =
      ⟨f ++ (primResults meters).map (fun r => (channelPath dir r.1, r.2)),
       l ++ (primResults meters).map (fun r => labelLine r.1)⟩ := by
  induction meters with
  | nil => intro f l; simp [primResults]
  | cons m rest ih =>
    intro f l
    rw [List.foldl_cons]
    cases h1 : (m.key == "cache") with
    | true =>
      have hk : m.key = "cache" := by simpa using h1
      have hstep : primMeterStep dir ⟨f, l⟩ m = ⟨f, l⟩ := by
        simp [primMeterStep, h1]
      rw [hstep, ih]
      simp [primResults, List.filterMap_cons, hk]
    | false =>
      have hk : ¬m.key = "cache" := by simpa using h1
      cases h2 : startsWithStr m.key "meter" with
      | false =>
        have hstep : primMeterStep dir ⟨f, l⟩ m = ⟨f, l⟩ := by
          simp [primMeterStep, h1, h2]
        rw [hstep, ih]
        simp [primResults, List.filterMap_cons, hk, h2]
      | true =>
        cases hp : processMeterPrim m.key m.tbl? with
        | error e =>
          have hstep : primMeterStep dir ⟨f, l⟩ m = ⟨f, l⟩ := by
            simp [primMeterStep, h1, h2, hp]
          rw [hstep, ih]
          simp [primResults, List.filterMap_cons, hk, h2, hp, Except.toOption]
        | ok r =>
          have hstep : primMeterStep dir ⟨f, l⟩ m =
              ⟨f ++ [(channelPath dir r.1, r.2)], l ++ [labelLine r.1]⟩ := by
            simp [primMeterStep, h1, h2, hp]
          rw [hstep, ih]
          simp [primResults, List.filterMap_cons, hk, h2, hp, Except.toOption]

theorem primBuildingStepClosed (st : RunState) (b : BuildingEntry) :
    primBuildingStep st b =
      ⟨st.dirs ++ primDirsOf b, st.files ++ primFilesOf b,
       st.processed + (if primConvertedB b then 1 else 0)⟩ := by
  cases hsw : startsWithStr b.key "building" with
  | false =>
    simp [primBuildingStep, hsw, primDirsOf, primFilesOf, primConvertedB]
  | true =>
    cases he : b.elec? with
    | none =>
      simp [primBuildingStep, hsw, he, primDirsOf, primFilesOf, primConvertedB]
    | some meters =>
      simp only [primBuildingStep, hsw, Bool.not_true, Bool.false_eq_true,
        if_false, he, ite_false]
      rw [primMeterFold (houseDirOf b.key) meters [] []]
      simp only [List.nil_append, isEmptyMap]
      simp [primDirsOf, primFilesOf, primConvertedB, hsw, he,
        List.append_assoc]

theorem primRunFold (c : List BuildingEntry) :
    ∀ d f p, c.foldl primBuildingStep ⟨d, f, p⟩ =
      ⟨d ++ (c.map primDirsOf).flatten, f ++ (c.map primFilesOf).flatten,
       p + c.countP (fun b => primConvertedB b)⟩ := by
  induction c with
  | nil => intro d f p; simp
  | cons b rest ih =>
    intro d f p
    rw [List.foldl_cons, primBuildingStepClosed, ih]
    simp [List.countP_cons, List.append_assoc, RunState.mk.injEq]
    cases hcb : primConvertedB b
    all_goals simp [hcb]
    all_goals omega

theorem runPrimaryClosed (c : List BuildingEntry) :
    runPrimary c =
      ⟨(c.map primDirsOf).flatten, (c.map primFilesOf).flatten,
       c.countP (fun b => primConvertedB b)⟩ := by
  unfold runPrimary
  rw [primRunFold]
  simp

theorem fbMeterFold (store : Store) (b : Nat) (ms : List Nat) :
    ∀ f l, ms.foldl (fbMeterStep store b) ⟨f, l⟩ =
      ⟨f ++ (fbResultsOver store b ms).map
          (fun r => (channelPath (fbDirOf b) (r.1 : Int), r.2)),
       l ++ (fbResultsOver store b ms).map (fun r => labelLine (r.1 : Int))⟩ := by
  induction ms with
  | nil => intro f l; simp [fbResultsOver]
  | cons m rest ih =>
    intro f l
    rw [List.foldl_cons]
    cases hc : fbMeterContent store b m with
    | none =>
      have hstep : fbMeterStep store b ⟨f, l⟩ m = ⟨f, l⟩ := by
        simp [fbMeterStep, hc]
      rw [hstep, ih]
      simp [fbResultsOver, List.filterMap_cons, hc]
    | some content =>
      have hstep : fbMeterStep store b ⟨f, l⟩ m =
          ⟨f ++ [(channelPath (fbDirOf b) (m : Int), content)],
           l ++ [labelLine (m : Int)]⟩ := by
        simp [fbMeterStep, fbDirOf, hc]
      rw [hstep, ih]
      simp [fbResultsOver, List.filterMap_cons, hc]

theorem fbBuildingStepClosed (store : Store) (st : RunState) (b : Nat) :
    fbBuildingStep store st b =
      ⟨st.dirs ++ [fbDirOf b], st.files ++ fbFilesOf store b,
       st.processed + (if (fbResults store b).isEmpty then 0 else 1)⟩ := by
  simp only [fbBuildingStep]
  rw [fbMeterFold store b (List.range' 1 29) [] []]
  simp only [List.nil_append, isEmptyMap]
  simp [fbFilesOf, fbDirOf, fbResults, List.append_assoc]

theorem fbRunFold (store : Store) (bs : List Nat) :
    ∀ d f p, bs.foldl (fbBuildingStep store) ⟨d, f, p⟩ =
      ⟨d ++ bs.map fbDirOf, f ++ (bs.map (fbFilesOf store)).flatten,
       p + bs.countP (fun b => !(fbResults store b).isEmpty)⟩ := by
  induction bs with
  | nil => intro d f p; simp
  | cons b rest ih =>
    intro d f p
    rw [List.foldl_cons, fbBuildingStepClosed, ih]
    simp [List.countP_cons, List.append_assoc, RunState.mk.injEq]
    all_goals by_cases hre : fbResults store b = []
    all_goals simp [hre]
    all_goals try omega

theorem runFallbackClosed (store : Store) :
    runFallback store =
      ⟨(List.range' 1 6).map fbDirOf,
       ((List.range' 1 6).map (fbFilesOf store)).flatten,
       (List.range' 1 6).countP (fun b => !(fbResults store b).isEmpty)⟩ := by
  unfold runFallback
  rw [fbRunFold]
  simp

/-!
## Arithmetic bridges for the timestamp rescaling
-/

theorem nsToSecBounds (t : Int) (ht : 0 ≤ t) :
    10 ^ 9 * nsToSec t ≤ t ∧ t < 10 ^ 9 * (nsToSec t + 1) := by
  unfold nsToSec
  rw [Int.tdiv_eq_ediv ht (by norm_num)]
  have h1 : (10 : ℤ) ^ 9 * (t / 10 ^ 9) + t % 10 ^ 9 = t := Int.ediv_add_emod t (10 ^ 9)
  have h2 : 0 ≤ t % 10 ^ 9 := Int.emod_nonneg t (by norm_num)
  have h3 : t % 10 ^ 9 < 10 ^ 9 := Int.emod_lt_of_pos t (by norm_num)
  omega

theorem ratTruncIntCast (t : Int) : ratTrunc ((t : Int) : ℚ) = t := by
  simp [ratTrunc, Rat.num_intCast, Rat.den_intCast]

theorem truncDivE9IntCast (t : Int) : truncDivE9 ((t : Int) : ℚ) = nsToSec t := by
  simp only [truncDivE9, nsToSec, Rat.num_intCast, Rat.den_intCast, one_mul]
  norm_num

theorem foldlMaxCast (l : List Int) :
    ∀ h : Int, (((l.foldl max h : Int)) : ℚ) =
      (l.map (fun t => ((t : Int) : ℚ))).foldl max ((h : Int) : ℚ) := by
  induction l with
  | nil => intro h; rfl
  | cons a l ih =>
    intro h
    simp only [List.foldl_cons, List.map_cons]
    rw [ih, Int.cast_max]

/-!
## Claims
-/

/-- The container of the end-to-end scenario of C1: one building
`building3` with one meter `meter5` whose table has the two
nanosecond-timestamp rows `(1_000_000_000_000, 12.5)` and
`(2_000_000_000_000, 0.0)` in a scalar `values_block_0` field. -/
def c1Table : MeterTable :=
  { nrows := 2, index? := some [1000000000000, 2000000000000],
    cols := [("values_block_0", [[mkRat 25 2], [mkRat 0 1]])] }

def c1Container : List BuildingEntry :=
  [{ key := "building3", elec? := some [{ key := "meter5", tbl? := some c1Table }] }]

/-- C1, counterexample: on the scenario container the Primary Converter
writes `house_3/channel_5.dat` with content `"1000 12.5\n2000 0.0\n"` —
the CSV writer terminates the last row too — so the file/content pair the
claim asserts (no trailing newline) is not among the written files. -/
theorem claim_C1_counterexample :
    (runPrimary c1Container).files =
      [("house_3/channel_5.dat", "1000 12.5\n2000 0.0\n"),
       ("house_3/labels.dat", "5 refrigerator")] ∧
    ("house_3/channel_5.dat", "1000 12.5\n2000 0.0") ∉ (runPrimary c1Container).files := by
  decide

/-- C1, amended: on the scenario container the Primary Converter writes
exactly `house_3/channel_5.dat` with content `"1000 12.5\n2000 0.0\n"`
(the claimed rows, each row newline-terminated by the CSV writer) and
`house_3/labels.dat` with content exactly `"5 refrigerator"`, in the
single created directory `house_3`. -/
theorem claim_C1 :
    (runPrimary c1Container).dirs = ["house_3"] ∧
    (runPrimary c1Container).files =
      [("house_3/channel_5.dat", "1000 12.5\n2000 0.0\n"),
       ("house_3/labels.dat", "5 refrigerator")] := by
  decide

/-- C3, counterexample: on an empty store every building 1–6 yields zero
successfully-read meters, and the Fallback Converter's processed-building
count is 0 — it does NOT count attempted-but-empty buildings, contrary to
the claimed policy difference. -/
theorem claim_C3_counterexample : (runFallback []).processed = 0 := by
  decide

/-- C3, amended: both converters guard their processed-building counter
the same way — a building is counted exactly when at least one meter
converted (equivalently, at least one label line was recorded); the two
counting policies for empty buildings coincide. -/
theorem claim_C3 (c : List BuildingEntry) (store : Store) :
    (runPrimary c).processed = c.countP (fun b => primConvertedB b) ∧
    (runFallback store).processed =
      (List.range' 1 6).countP (fun b => !(fbResults store b).isEmpty) := by
  exact ⟨by rw [runPrimaryClosed], by rw [runFallbackClosed]⟩

/-- C5: for every successfully read meter table of the Primary Converter,
the written channel content applies `nsToSec` — division of the raw
integer timestamp by `10 ^ 9` with truncation — unconditionally to every
timestamp (no unit detection), and `nsToSec` is the truncation of
`t / 1e9`: for `0 ≤ t` it is the unique `s` with
`10 ^ 9 * s ≤ t < 10 ^ 9 * (s + 1)`. -/
theorem claim_C5 (key : String) (tbl : MeterTable) (n : Int) (ts : List Int)
    (vals : List ℚ)
    (hn : pyInt? (pyReplace key "meter" "") = some n)
    (hr : tbl.nrows ≠ 0)
    (hi : tbl.index? = some ts)
    (hv : resolveValueColE tbl = .ok vals) :
    processMeterPrim key (some tbl) = .ok (n, mkChanContent (ts.map nsToSec) vals) ∧
    ∀ t : Int, 0 ≤ t → 10 ^ 9 * nsToSec t ≤ t ∧ t < 10 ^ 9 * (nsToSec t + 1) := by
  constructor
  · have hz : (tbl.nrows == 0) = false := by simpa using hr
    simp [processMeterPrim, hn, hi, hv, hz]
  · intro t ht
    exact nsToSecBounds t ht

def c5Tbl : MeterTable :=
  { nrows := 1, index? := some [2500000000], cols := [("values_block_0", [[mkRat 7 1]])] }

theorem claim_C5_witness :
    processMeterPrim "meter3" (some c5Tbl) =
      .ok (3, mkChanContent ([2500000000].map nsToSec) [mkRat 7 1]) ∧
    10 ^ 9 * nsToSec 2500000000 ≤ 2500000000 ∧
    (2500000000 : Int) < 10 ^ 9 * (nsToSec 2500000000 + 1) :=
  ⟨(claim_C5 "meter3" c5Tbl 3 [2500000000] [mkRat 7 1] rfl (by decide) rfl rfl).1,
   (claim_C5 "meter3" c5Tbl 3 [2500000000] [mkRat 7 1] rfl (by decide) rfl rfl).2
     2500000000 (by decide)⟩

/-- `timestamps.max()` on a nonempty integer array. -/
def intListMax : List Int → Int
  | [] => 0
  | h :: t => t.foldl max h

/-- C4: the Fallback Converter's rescaling rule on a nonempty array of
integer raw timestamps: when the maximum exceeds `1e12` every timestamp
is divided by `1e9` and truncated — never rounded: the result `s` of a
nonnegative `t` satisfies `10 ^ 9 * s ≤ t < 10 ^ 9 * (s + 1)` — and
otherwise the array is left unchanged (integer cast only), so the rule is
the identity on timestamps already in seconds. -/
theorem claim_C4 (ts : List Int) (hne : ts ≠ []) :
    (intListMax ts ≤ 10 ^ 12 →
      rescaleTs (ts.map (fun t : Int => (t : ℚ))) = ts) ∧
    (10 ^ 12 < intListMax ts →
      rescaleTs (ts.map (fun t : Int => (t : ℚ))) = ts.map nsToSec ∧
      ∀ t ∈ ts, 0 ≤ t → 10 ^ 9 * nsToSec t ≤ t ∧ t < 10 ^ 9 * (nsToSec t + 1)) := by
  cases ts with
  | nil => exact absurd rfl hne
  | cons h t =>
    have hmax : ((10 : ℚ) ^ 12 <
        (t.map (fun t : Int => (t : ℚ))).foldl max ((h : Int) : ℚ)) ↔
        ((10 : Int) ^ 12 < intListMax (h :: t)) := by
      rw [← foldlMaxCast]
      constructor
      · intro hlt
        exact_mod_cast hlt
      · intro hlt
        exact_mod_cast hlt
    constructor
    · intro hle
      have hcond : ¬ ((10 : ℚ) ^ 12 <
          (t.map (fun t : Int => (t : ℚ))).foldl max ((h : Int) : ℚ)) := by
        rw [hmax]
        omega
      simp only [List.map_cons, rescaleTs, if_neg hcond]
      simp [List.map_map, Function.comp_def, ratTruncIntCast]
    · intro hlt
      have hcond : (10 : ℚ) ^ 12 <
          (t.map (fun t : Int => (t : ℚ))).foldl max ((h : Int) : ℚ) := by
        rw [hmax]
        exact hlt
      constructor
      · simp only [List.map_cons, rescaleTs, if_pos hcond]
        simp [List.map_map, Function.comp_def, truncDivE9IntCast]
      · intro x _ hx
        exact nsToSecBounds x hx

theorem claim_C4_witness :
    rescaleTs ([(2500000000000 : Int)].map (fun t : Int => (t : ℚ))) =
      [(2500000000000 : Int)].map nsToSec ∧
    rescaleTs ([(1700000000 : Int)].map (fun t : Int => (t : ℚ))) = [(1700000000 : Int)] :=
  ⟨((claim_C4 [2500000000000] (by decide)).2 (by decide)).1,
   (claim_C4 [1700000000] (by decide)).1 (by decide)⟩

/-- C2: per building, in either converter, the written channel files and
the label lines are images of one and the same result list: `labels.dat`
exists iff at least one meter converted, its content is the newline-join
of exactly one `labelLine` per converted meter, and the meter ids behind
the label lines are exactly the ids behind the written `channel_<m>.dat`
files. -/
theorem claim_C2 (b : BuildingEntry) (meters : List MeterEntry) (store : Store) (bn : Nat)
    (hb : startsWithStr b.key "building" = true)
    (he : b.elec? = some meters) :
    ((primBuildingStep ⟨[], [], 0⟩ b).files =
      (primResults meters).map (fun r => (channelPath (houseDirOf b.key) r.1, r.2)) ++
        (if (primResults meters).isEmpty then []
         else [(labelsPath (houseDirOf b.key),
                joinWith "\n" ((primResults meters).map (fun r => labelLine r.1)))])) ∧
    ((fbBuildingStep store ⟨[], [], 0⟩ bn).files =
      (fbResults store bn).map (fun r => (channelPath (fbDirOf bn) (r.1 : Int), r.2)) ++
        (if (fbResults store bn).isEmpty then []
         else [(labelsPath (fbDirOf bn),
                joinWith "\n" ((fbResults store bn).map (fun r => labelLine (r.1 : Int))))])) := by
  constructor
  · rw [primBuildingStepClosed]
    simp [primFilesOf, hb, he]
  · rw [fbBuildingStepClosed]
    simp [fbFilesOf]

def c2Meters : List MeterEntry := [{ key := "meter1", tbl? := some c1Table }]

def c2B : BuildingEntry := { key := "building2", elec? := some c2Meters }

theorem claim_C2_witness :
    ((primBuildingStep ⟨[], [], 0⟩ c2B).files =
      (primResults c2Meters).map (fun r => (channelPath (houseDirOf c2B.key) r.1, r.2)) ++
        (if (primResults c2Meters).isEmpty then []
         else [(labelsPath (houseDirOf c2B.key),
                joinWith "\n" ((primResults c2Meters).map (fun r => labelLine r.1)))])) ∧
    ((fbBuildingStep ([] : Store) ⟨[], [], 0⟩ 1).files =
      (fbResults ([] : Store) 1).map (fun r => (channelPath (fbDirOf 1) (r.1 : Int), r.2)) ++
        (if (fbResults ([] : Store) 1).isEmpty then []
         else [(labelsPath (fbDirOf 1),
                joinWith "\n" ((fbResults ([] : Store) 1).map (fun r => labelLine (r.1 : Int))))])) :=
  claim_C2 c2B c2Meters [] 1 (by decide) rfl

/-- C6: value-column resolution of the Primary Converter in order: a
`values_block_0` field is used (its first sub-field per row); else the
first field whose lowercased name contains `value` is used (its first
sub-field per row); else the meter is skipped with the `No power values
found` diagnostic and yields no channel file and no label line while the
loop state is left untouched. -/
theorem claim_C6 (key : String) (tbl : MeterTable) (n : Int) (ts : List Int)
    (hn : pyInt? (pyReplace key "meter" "") = some n)
    (hr : tbl.nrows ≠ 0)
    (hi : tbl.index? = some ts) :
    (∀ rows v, tbl.cols.lookup "values_block_0" = some rows →
      subFieldFirst rows = some v →
      processMeterPrim key (some tbl) = .ok (n, mkChanContent (ts.map nsToSec) v)) ∧
    (∀ c v, tbl.cols.lookup "values_block_0" = none →
      tbl.cols.find? (fun c2 => strContains (lowerStr c2.1) "value") = some c →
      subFieldFirst c.2 = some v →
      processMeterPrim key (some tbl) = .ok (n, mkChanContent (ts.map nsToSec) v)) ∧
    (tbl.cols.lookup "values_block_0" = none →
      tbl.cols.find? (fun c2 => strContains (lowerStr c2.1) "value") = none →
      processMeterPrim key (some tbl) = .error .noValueColumn ∧
      primSkipMsg key .noValueColumn = "    No power values found in " ++ key ∧
      ∀ dir st, primMeterStep dir st ⟨key, some tbl⟩ = st) := by
  have hz : (tbl.nrows == 0) = false := by simpa using hr
  refine ⟨?_, ?_, ?_⟩
  · intro rows v hlk hsf
    simp [processMeterPrim, resolveValueColE, hn, hi, hz, hlk, hsf]
  · intro c v hlk hfd hsf
    simp [processMeterPrim, resolveValueColE, hn, hi, hz, hlk, hfd, hsf]
  · intro hlk hfd
    have herr : processMeterPrim key (some tbl) = .error .noValueColumn := by
      simp [processMeterPrim, resolveValueColE, hn, hi, hz, hlk, hfd]
    refine ⟨herr, rfl, ?_⟩
    intro dir st
    cases h1 : (key == "cache") with
    | true => simp [primMeterStep, h1]
    | false =>
      cases h2 : startsWithStr key "meter" with
      | false => simp [primMeterStep, h1, h2]
      | true => simp [primMeterStep, h1, h2, herr]

def c6Tbl : MeterTable :=
  { nrows := 2, index? := some [1000000000, 2000000000],
    cols := [("values_block_0",
              [[mkRat 7 1, mkRat 8 1], [mkRat 9 1, mkRat 10 1]])] }

theorem claim_C6_witness :
    processMeterPrim "meter4" (some c6Tbl) =
      .ok (4, mkChanContent ([1000000000, 2000000000].map nsToSec)
                [mkRat 7 1, mkRat 9 1]) :=
  (claim_C6 "meter4" c6Tbl 4 [1000000000, 2000000000] rfl (by decide) rfl).1
    [[mkRat 7 1, mkRat 8 1], [mkRat 9 1, mkRat 10 1]] [mkRat 7 1, mkRat 9 1] rfl rfl

/-- C7: in the Fallback Converter every failure is local to its
`(building, meter)` pair: the outcome for a pair depends only on the
store's entry at that pair's composed key; a failed pair contributes
nothing to the loop state (no channel file, no label line) and prints no
diagnostic; and the run decomposes into independent per-building,
per-meter contributions, so no failure aborts a sibling meter or
building. -/
theorem claim_C7 (store store2 : Store) (b m : Nat) :
    (store.lookup (fbKey b m) = store2.lookup (fbKey b m) →
      fbMeterContent store b m = fbMeterContent store2 b m) ∧
    (fbMeterContent store b m = none → ∀ st : BState, fbMeterStep store b st m = st) ∧
    fbSkipDiagnostics = [] ∧
    (runFallback store).files = ((List.range' 1 6).map (fbFilesOf store)).flatten ∧
    ((List.range' 1 29).foldl (fbMeterStep store b) ⟨[], []⟩).files =
      (fbResults store b).map (fun r => (channelPath (fbDirOf b) (r.1 : Int), r.2)) := by
  refine ⟨?_, ?_, rfl, ?_, ?_⟩
  · intro hagree
    simp [fbMeterContent, hagree]
  · intro hnone st
    simp [fbMeterStep, hnone]
  · rw [runFallbackClosed]
  · rw [fbMeterFold]
    simp [fbResults]

theorem claim_C7_witness :
    fbMeterContent ([] : Store) 1 1 = fbMeterContent ([] : Store) 1 1 ∧
    fbMeterStep ([] : Store) 1 ⟨[], []⟩ 1 = ⟨[], []⟩ :=
  ⟨(claim_C7 [] [] 1 1).1 rfl, (claim_C7 [] [] 1 1).2.1 (by decide) ⟨[], []⟩⟩

/-- C8: the `house_<id>` directory is created before any meter of the
building is examined: a `building`-prefixed entry always appends its
house directory, and with no `elec` group the Primary Converter writes no
file and counts nothing; the Fallback Converter creates `house_1` …
`house_6` whatever the store holds, and a building id with zero
converted meters gets no files at all — an empty directory remains. -/
theorem claim_C8 (st : RunState) (b : BuildingEntry) (store : Store)
    (hb : startsWithStr b.key "building" = true) :
    ((primBuildingStep st b).dirs = st.dirs ++ [houseDirOf b.key]) ∧
    (b.elec? = none →
      (primBuildingStep st b).files = st.files ∧
      (primBuildingStep st b).processed = st.processed) ∧
    ((runFallback store).dirs = (List.range' 1 6).map fbDirOf) ∧
    (∀ bn : Nat, fbResults store bn = [] → fbFilesOf store bn = []) := by
  refine ⟨?_, ?_, ?_, ?_⟩
  · rw [primBuildingStepClosed]
    simp [primDirsOf, hb]
  · intro he
    rw [primBuildingStepClosed]
    simp [primFilesOf, primConvertedB, hb, he]
  · rw [runFallbackClosed]
  · intro bn hre
    simp [fbFilesOf, hre]

def c8B : BuildingEntry := { key := "building7", elec? := none }

theorem claim_C8_witness :
    (primBuildingStep ⟨[], [], 0⟩ c8B).dirs = [] ++ [houseDirOf c8B.key] ∧
    (primBuildingStep ⟨[], [], 0⟩ c8B).files = [] ∧
    (runFallback ([] : Store)).dirs = (List.range' 1 6).map fbDirOf ∧
    fbFilesOf ([] : Store) 1 = [] :=
  have h := claim_C8 ⟨[], [], 0⟩ c8B [] (by decide)
  ⟨h.1, (h.2.1 rfl).1, h.2.2.1, h.2.2.2 1 (by decide)⟩

/-- C9: the Fallback Converter takes its timestamps from the column named
`index` when the DataFrame has one, and from the row index otherwise —
in particular a meter table without an `index` column is still converted
(row index as timestamps) rather than skipped. -/
theorem claim_C9 (store : Store) (b m : Nat) (frame : FBFrame) (pc : String × List ℚ)
    (hl : store.lookup (fbKey b m) = some frame)
    (hn : frame.idx.length ≠ 0)
    (hp : fbPowerCol frame = some pc) :
    (frame.cols.lookup "index" = none →
      fbMeterContent store b m = some (mkChanContent (rescaleTs frame.idx) pc.2)) ∧
    (∀ tsc, frame.cols.lookup "index" = some tsc →
      fbMeterContent store b m = some (mkChanContent (rescaleTs tsc) pc.2)) := by
  have hz : (frame.idx.length == 0) = false := by simpa using hn
  constructor
  · intro hidx
    simp [fbMeterContent, fbTimestamps, hl, hz, hp, hidx]
  · intro tsc hidx
    simp [fbMeterContent, fbTimestamps, hl, hz, hp, hidx]

def c9Frame : FBFrame :=
  { idx := [mkRat 1000000000 1, mkRat 2000000000 1],
    cols := [("power_active", [mkRat 3 1, mkRat 4 1])] }

def c9Store : Store := [(fbKey 2 3, c9Frame)]

theorem claim_C9_witness :
    fbMeterContent c9Store 2 3 =
      some (mkChanContent (rescaleTs c9Frame.idx) [mkRat 3 1, mkRat 4 1]) :=
  (claim_C9 c9Store 2 3 c9Frame ("power_active", [mkRat 3 1, mkRat 4 1])
    rfl (by decide) rfl).1 rfl

/-- C10: a meter entry whose key starts with `meter` but whose stripped
suffix `int(...)` cannot parse raises, is caught by the per-meter
handler (which logs the `Warning: Could not process` line), produces no
channel file and no label line, and leaves the building's meter loop to
process the remaining meters exactly as if the entry were absent. -/
theorem claim_C10 (key : String) (tbl? : Option MeterTable)
    (hk : startsWithStr key "meter" = true)
    (hc : key ≠ "cache")
    (hbad : pyInt? (pyReplace key "meter" "") = none) :
    processMeterPrim key tbl? = .error .badMeterNum ∧
    primSkipMsg key .badMeterNum = "  Warning: Could not process " ++ key ∧
    ∀ (l r : List MeterEntry) (dir : String) (st : BState),
      (l ++ ⟨key, tbl?⟩ :: r).foldl (primMeterStep dir) st =
        r.foldl (primMeterStep dir) (l.foldl (primMeterStep dir) st) := by
  have herr : processMeterPrim key tbl? = .error .badMeterNum := by
    simp [processMeterPrim, hbad]
  refine ⟨herr, rfl, ?_⟩
  intro l r dir st
  rw [List.foldl_append, List.foldl_cons]
  have hstep : primMeterStep dir (l.foldl (primMeterStep dir) st) ⟨key, tbl?⟩ =
      l.foldl (primMeterStep dir) st := by
    cases h1 : (key == "cache") with
    | true => simp [primMeterStep, h1]
    | false =>
      cases h2 : startsWithStr key "meter" with
      | false => simp [primMeterStep, h1, h2]
      | true => simp [primMeterStep, h1, h2, herr]
  rw [hstep]

theorem claim_C10_witness :
    processMeterPrim "meterX" none = Except.error MeterSkip.badMeterNum ∧
    (([] : List MeterEntry) ++ (⟨"meterX", none⟩ : MeterEntry) :: ([] : List MeterEntry)).foldl
        (primMeterStep "house_1") ⟨[], []⟩ =
      ([] : List MeterEntry).foldl (primMeterStep "house_1")
        (([] : List MeterEntry).foldl (primMeterStep "house_1") ⟨[], []⟩) :=
  have h := claim_C10 "meterX" none (by decide) (by decide) (by decide)
  ⟨h.1, h.2.2 [] [] "house_1" ⟨[], []⟩⟩
